import Mathlib

/-!
# Verification of the Magi video-generation controller

Shallow embedding of the job-lifecycle controller embedded in
`src/frontend/src/App.js` (component `VideoGeneratorPage`): submission
(`startVideoGeneration`), the polling interval callback inside
`realVideoGeneration`, the 15-minute timeout callback, the debug logger
(`addDebugLog`) and the submit command (`handleSubmit`).

Modelling conventions:
* React state hooks (`isGenerating`, `progress`, `error`, `currentStep`,
  `generatedVideo`, `debugLogs`, `jobId`) and the per-run local variables of
  `realVideoGeneration` (`pollCount`, `consecutiveErrors`, the interval's
  liveness, `currentJobId`) are gathered into one `AppState` record.
* Network outcomes (the submission exchange, each status poll) are inputs:
  a run is a fold of events over the state.
* `setTimeout`'s callback closes over the `isGenerating` prop value of the
  render that created `realVideoGeneration`; that captured value is stored in
  the state at run start (`capturedIsGenerating`) and is never updated by
  `setIsGenerating`, exactly as a JS closure variable.
* A `throw` that escapes the async interval callback is not caught by the
  `try/catch` of `realVideoGeneration` (which has already returned); it
  surfaces only as an unhandled promise rejection, recorded in the ghost
  field `unhandledRejection` and touching no React state.
* Wall-clock timestamps on log entries and the dynamic payload interpolated
  into some log messages are elided; each `addDebugLog` call site appends an
  entry with the source's message prefix and severity.
-/

namespace Magi

/-- `const API_BASE_URL = 'http://localhost:8000'`. -/
def API_BASE_URL : String := "http://localhost:8000"

/-- Severity tag of a debug-log entry (`type` argument of `addDebugLog`). -/
inductive LogType where
  | info
  | success
  | warning
  | error
deriving DecidableEq, Repr

/-- One debug-log entry. The source also stores a wall-clock `time` string
(`new Date().toLocaleTimeString()`), which is not modelled. -/
structure LogEntry where
  message : String
  type : LogType
deriving DecidableEq, Repr

/-- `setDebugLogs(prev => [...prev.slice(-20), {time, message, type}])`
(lines 45-53).  `slice(-20)` keeps the last `min(20, length)` entries, then
one more entry is appended. -/
def addDebugLog (logs : List LogEntry) (message : String) (type : LogType) :
    List LogEntry :=
  logs.drop (logs.length - 20) ++ [{ message := message, type := type }]

/-- One status snapshot as parsed from `/api/video-status/{jobId}`:
`status` tag, optional numeric `progress`, optional `current_step`,
optional `error` detail. -/
structure JobStatus where
  status : String
  progress : Option Nat
  current_step : Option String
  error : Option String
deriving DecidableEq, Repr

/-- The object passed to `setGeneratedVideo` on completion (lines 165-171). -/
structure GeneratedVideo where
  title : String
  duration : String
  jobId : String
  downloadUrl : String
  status : String
deriving DecidableEq, Repr

/-- The form state of the generator page. -/
structure FormData where
  topic : String
  level : Nat
  duration : Nat
  subtitleStyle : String
  wpm : Nat
  dryRun : Bool
deriving DecidableEq, Repr

/-- React state of the generator page plus the per-run locals of
`realVideoGeneration`. -/
structure AppState where
  isGenerating : Bool
  progress : Nat
  error : String
  currentStep : String
  generatedVideo : Option GeneratedVideo
  debugLogs : List LogEntry
  jobId : Option String
  /-- local `let pollCount = 0` of `realVideoGeneration`. -/
  pollCount : Nat
  /-- local `let consecutiveErrors = 0` of `realVideoGeneration`. -/
  consecutiveErrors : Nat
  /-- whether this run's `pollInterval` timer is still scheduled
  (false before `setInterval` and after any `clearInterval`). -/
  intervalActive : Bool
  /-- local `const currentJobId` bound after submission. -/
  currentJobId : String
  /-- `formData.topic` as captured by the run's closure. -/
  capturedTopic : String
  /-- `formData.duration` as captured by the run's closure. -/
  capturedDuration : Nat
  /-- the `isGenerating` prop value captured by the closure of the render
  that invoked `realVideoGeneration`; `setIsGenerating` never rebinds it. -/
  capturedIsGenerating : Bool
  /-- ghost: message of a promise rejection that escaped an async callback
  uncaught (observable only on the console, never in React state). -/
  unhandledRejection : Option String
deriving DecidableEq, Repr

/-- The initial `useState` values of the page (lines 676-691, 34-36). -/
def initialAppState : AppState where
  isGenerating := false
  progress := 0
  error := ""
  currentStep := ""
  generatedVideo := none
  debugLogs := []
  jobId := none
  pollCount := 0
  consecutiveErrors := 0
  intervalActive := false
  currentJobId := ""
  capturedTopic := ""
  capturedDuration := 0
  capturedIsGenerating := false
  unhandledRejection := none

/-- Append one debug-log entry to the state (an `addDebugLog(...)` call). -/
def logEntry (st : AppState) (message : String) (type : LogType) : AppState :=
  { st with debugLogs := addDebugLog st.debugLogs message type }

/-- JS `opt || default` on an optional string: `undefined` and the empty
string are both falsy. -/
def orElseStr (s : Option String) (d : String) : String :=
  match s with
  | some v => if v = "" then d else v
  | none => d

/-- Outcome of one `pollVideoStatus` call: either a parsed `JobStatus`
(`response.ok`, body parsed), or a transport failure (the fetch threw, or
`!response.ok`, in which case the thrown message is the fixed
`'Failed to get video status'`). -/
inductive PollOutcome where
  | ok (status : JobStatus)
  | transportFailure (message : String)
deriving DecidableEq, Repr

/-- Outcome of the `startVideoGeneration` exchange: success with `job_id`,
a non-success response carrying `errorData.detail` (line 72 throws
`detail || 'Failed to start video generation'`), or a failure of the
exchange itself. -/
inductive SubmitOutcome where
  | ok (job_id : String)
  | rejected (detail : Option String)
  | transportError (message : String)
deriving DecidableEq, Repr

/-- Lines 184-189: slow-run warnings inside the interval callback's `try`,
reached on any tick that did not throw. `checkAllJobs`'s response-dependent
second entry is elided; only its deterministic first entry is appended. -/
def pollCountChecks (st : AppState) : AppState :=
  if st.pollCount = 10 then
    logEntry st "⏰ Generation taking longer than expected (30s), but continuing..." .warning
  else if st.pollCount = 40 then
    logEntry
      (logEntry st "⏰ Generation taking much longer than expected (2min), checking all jobs..." .warning)
      "🔍 Fetching all jobs for debugging..." .info
  else st

/-- The `catch (pollError)` handler of the interval callback (lines
191-202): increment `consecutiveErrors`, log, and once the count reaches
`maxConsecutiveErrors = 3` clear the interval and `throw` — a throw that
escapes the async callback uncaught (the enclosing `realVideoGeneration`
already returned), so no React state is written by it. -/
def onPollError (st : AppState) (message : String) : AppState :=
  let st1 := { st with consecutiveErrors := st.consecutiveErrors + 1 }
  let st2 := logEntry st1
    ("🚨 Poll error " ++ toString st1.consecutiveErrors ++ "/3: " ++ message) .error
  if 3 ≤ st2.consecutiveErrors then
    { st2 with
      intervalActive := false
      unhandledRejection :=
        some ("Polling failed after 3 consecutive errors: " ++ message) }
  else st2

/-- One firing of the interval callback (lines 143-203).  A cleared interval
never fires again, hence the `intervalActive` guard.  On a successful query:
reset the error counter, project progress and phase, then branch on the
status tag.  On `'completed'`: clear the interval, record the download
locator, force progress to 100, clear `isGenerating`, and fall through to
the slow-run checks.  On `'failed'`: log, clear the interval, and `throw
status.error || 'Video generation failed'` — caught by this same callback's
own `catch`, i.e. `onPollError`.  On a transport failure: `onPollError`. -/
def pollTick (st : AppState) (outcome : PollOutcome) : AppState :=
  if st.intervalActive then
    let st1 := { st with pollCount := st.pollCount + 1 }
    let st2 := logEntry st1
      ("📊 Poll attempt " ++ toString st1.pollCount ++ " for job " ++ st1.currentJobId) .info
    let st3 := logEntry st2 ("📊 Polling status for job: " ++ st2.currentJobId) .info
    match outcome with
    | .transportFailure message => onPollError st3 message
    | .ok status =>
      let st4 := logEntry st3 "📡 GET /api/video-status response: 200" .success
      let st5 := logEntry st4 "📈 Status update" .info
      let st6 := { st5 with consecutiveErrors := 0 }
      let st7 :=
        match status.progress with
        | some p =>
          logEntry { st6 with progress := p } ("Progress: " ++ toString p ++ "%") .success
        | none => st6
      let st8 :=
        match status.current_step with
        | some s => { st7 with currentStep := s }
        | none => st7
      if status.status = "completed" then
        let st9 := logEntry st8 "🎉 Video generation completed!" .success
        let st10 := { st9 with intervalActive := false }
        let st11 := { st10 with
          generatedVideo := some
            { title := st10.capturedTopic
              duration := toString st10.capturedDuration ++ ":00"
              jobId := st10.currentJobId
              downloadUrl := API_BASE_URL ++ "/api/video/" ++ st10.currentJobId
              status := "completed" } }
        let st12 := { st11 with currentStep := "Video ready for download!" }
        let st13 := { st12 with progress := 100 }
        let st14 := { st13 with isGenerating := false }
        pollCountChecks st14
      else if status.status = "failed" then
        let st9 := logEntry st8 "❌ Video generation failed" .error
        let st10 := { st9 with intervalActive := false }
        onPollError st10 (orElseStr status.error "Video generation failed")
      else
        pollCountChecks st8
  else st

/-- The `setTimeout` callback (lines 206-215).  `pollInterval` is the
interval id, always truthy, so the outer `if (pollInterval)` always runs:
log, `clearInterval`, then test the closure-captured `isGenerating` — the
prop value of the render that created the run, NOT the current state.  Only
when that stale capture is true are the timed-out message and
`setIsGenerating(false)` issued. -/
def timeoutFire (st : AppState) : AppState :=
  let st1 := logEntry st "⏰ 15 minute timeout reached" .warning
  let st2 := { st1 with intervalActive := false }
  if st2.capturedIsGenerating then
    { st2 with
      error := "Video generation timed out after 15 minutes. The video might still be processing. Check back later."
      isGenerating := false }
  else st2

/-- An asynchronous event of a run: one interval firing with its poll
outcome, or the timeout firing. -/
inductive RunEvent where
  | poll (outcome : PollOutcome)
  | timeout
deriving DecidableEq, Repr

/-- Dispatch one event. -/
def stepEvent (st : AppState) (e : RunEvent) : AppState :=
  match e with
  | .poll outcome => pollTick st outcome
  | .timeout => timeoutFire st

/-- The `catch (err)` of `realVideoGeneration` (lines 217-221):
log, `setError(err.message || "Failed to generate video. Please try again.")`,
`setIsGenerating(false)`. -/
def catchGeneration (st : AppState) (message : String) : AppState :=
  let st1 := logEntry st ("💥 Generation failed: " ++ message) .error
  let st2 := { st1 with
    error := if message = "" then "Failed to generate video. Please try again." else message }
  { st2 with isGenerating := false }

/-- The state resets at the top of `realVideoGeneration` (lines 112-117)
plus fresh per-run locals.  `currentStep` is NOT reset by the source.
`captured` is the `isGenerating` prop value closed over by this call. -/
def resetForRun (st : AppState) (fd : FormData) (captured : Bool) : AppState :=
  { st with
    isGenerating := true
    progress := 0
    error := ""
    generatedVideo := none
    debugLogs := []
    jobId := none
    pollCount := 0
    consecutiveErrors := 0
    intervalActive := false
    currentJobId := ""
    capturedTopic := fd.topic
    capturedDuration := fd.duration
    capturedIsGenerating := captured }

/-- `realVideoGeneration` (lines 111-222) as a function of the submission
outcome and the subsequent asynchronous events.  On a successful submission
the job id is bound, the interval starts, and the events are processed in
order; on a submission failure the function's own `catch` runs and the
polling interval is never created (the events are irrelevant, no status
query is ever issued). -/
def realVideoGeneration (st0 : AppState) (fd : FormData) (captured : Bool)
    (submit : SubmitOutcome) (events : List RunEvent) : AppState :=
  let st1 := resetForRun st0 fd captured
  let st2 := logEntry st1 "🚀 Starting video generation process..." .info
  let st3 := logEntry st2 "🚀 Starting video generation with request" .info
  match submit with
  | .ok job_id =>
    let st4 := logEntry st3 "📡 POST /api/generate-video response: 200" .success
    let st5 := logEntry st4 "✅ Generation started" .success
    let st6 := { st5 with jobId := some job_id, currentJobId := job_id }
    let st7 := logEntry st6 ("✅ Job created with ID: " ++ job_id) .success
    let st8 := { st7 with intervalActive := true }
    events.foldl stepEvent st8
  | .rejected detail =>
    let st4 := logEntry st3 "📡 POST /api/generate-video response" .error
    let st5 := logEntry st4 "❌ Error response" .error
    catchGeneration st5 (orElseStr detail "Failed to start video generation")
  | .transportError message =>
    catchGeneration st3 message

/-- JS `String.prototype.trim()`: strip leading and trailing whitespace.
Written structurally over the character list so it evaluates inside proofs
(the library's `String.trim` recurses on byte positions and does not). -/
def jsTrim (s : String) : String :=
  ⟨((s.data.dropWhile Char.isWhitespace).reverse.dropWhile Char.isWhitespace).reverse⟩

/-- `handleSubmit` (lines 224-236): validate the topic (`!topic.trim()`)
and the backend-health flag, else start a run.  The `isGenerating` value
captured by the invoked `realVideoGeneration` closure is the current one. -/
def handleSubmit (st : AppState) (fd : FormData) (backendConnected : Bool)
    (submit : SubmitOutcome) (events : List RunEvent) : AppState :=
  if jsTrim fd.topic = "" then
    { st with error := "Please enter a topic for your video" }
  else if backendConnected = false then
    { st with error := "Backend is not connected. Please make sure the API server is running." }
  else
    realVideoGeneration st fd st.isGenerating submit events

/-- `handleSubmit` paired with the liveness flag of a PREVIOUS run's
interval timer.  Every `clearInterval` in the source names the
`pollInterval` constant local to its own `realVideoGeneration` call, so no
statement reachable from `handleSubmit` can cancel an earlier run's timer:
the flag passes through unchanged. -/
def handleSubmitWithPriorInterval (priorIntervalActive : Bool) (st : AppState)
    (fd : FormData) (backendConnected : Bool) (submit : SubmitOutcome)
    (events : List RunEvent) : Bool × AppState :=
  (priorIntervalActive, handleSubmit st fd backendConnected submit events)

/-! ### Concrete fixtures -/

/-- The form of Scenario A of the spec. -/
def fdA : FormData where
  topic := "derivatives"
  level := 2
  duration := 5
  subtitleStyle := "modern"
  wpm := 150
  dryRun := false

/-- A pending snapshot reporting numeric progress `p`. -/
def pendingAt (p : Nat) : JobStatus where
  status := "pending"
  progress := some p
  current_step := none
  error := none

/-- State right after a successful submission of `fdA` (handle `job-1`),
before any poll. -/
def postSubmit : AppState :=
  handleSubmit initialAppState fdA true (.ok "job-1") []

/-- Run in which one pending poll is followed by the 15-minute timeout
firing while the run is still non-terminal. -/
def timedOutRun : AppState :=
  handleSubmit initialAppState fdA true (.ok "job-1")
    [.poll (.ok (pendingAt 10)), .timeout]

/-- Run in which the first three polls all fail at transport level. -/
def exhaustedRun : AppState :=
  handleSubmit initialAppState fdA true (.ok "job-1")
    [.poll (.transportFailure "network down"),
     .poll (.transportFailure "network down"),
     .poll (.transportFailure "network down")]

/-- Run in which the first poll succeeds and reports status `failed` with a
service-supplied error detail. -/
def reportedFailedRun : AppState :=
  handleSubmit initialAppState fdA true (.ok "job-1")
    [.poll (.ok { status := "failed", progress := none,
                  current_step := none, error := some "render crashed" })]

/-- Run after one pending poll reporting progress 50. -/
def regressRunMid : AppState :=
  handleSubmit initialAppState fdA true (.ok "job-1")
    [.poll (.ok (pendingAt 50))]

/-- Run after a pending poll reporting progress 50 followed by one
reporting progress 10 — a service-side regression. -/
def regressRun : AppState :=
  handleSubmit initialAppState fdA true (.ok "job-1")
    [.poll (.ok (pendingAt 50)), .poll (.ok (pendingAt 10))]

/-- Scenario A before its final poll: three pending polls with progress
10, 35, 70. -/
def scenarioARun : AppState :=
  handleSubmit initialAppState fdA true (.ok "job-1")
    [.poll (.ok (pendingAt 10)), .poll (.ok (pendingAt 35)),
     .poll (.ok (pendingAt 70))]

/-- The completed snapshot ending Scenario A (the service still reports its
last numeric progress, 70). -/
def completedAt70 : JobStatus where
  status := "completed"
  progress := some 70
  current_step := none
  error := none

/-! ### Projection lemmas

`logEntry` only appends to `debugLogs`; `pollCountChecks` only appends log
entries.  Each projection below records that the remaining fields pass
through. -/

@[simp] theorem logEntry_isGenerating (st : AppState) (m : String) (t : LogType) :
    (logEntry st m t).isGenerating = st.isGenerating := rfl

@[simp] theorem logEntry_progress (st : AppState) (m : String) (t : LogType) :
    (logEntry st m t).progress = st.progress := rfl

@[simp] theorem logEntry_error (st : AppState) (m : String) (t : LogType) :
    (logEntry st m t).error = st.error := rfl

@[simp] theorem logEntry_currentStep (st : AppState) (m : String) (t : LogType) :
    (logEntry st m t).currentStep = st.currentStep := rfl

@[simp] theorem logEntry_generatedVideo (st : AppState) (m : String) (t : LogType) :
    (logEntry st m t).generatedVideo = st.generatedVideo := rfl

@[simp] theorem logEntry_jobId (st : AppState) (m : String) (t : LogType) :
    (logEntry st m t).jobId = st.jobId := rfl

@[simp] theorem logEntry_pollCount (st : AppState) (m : String) (t : LogType) :
    (logEntry st m t).pollCount = st.pollCount := rfl

@[simp] theorem logEntry_consecutiveErrors (st : AppState) (m : String) (t : LogType) :
    (logEntry st m t).consecutiveErrors = st.consecutiveErrors := rfl

@[simp] theorem logEntry_intervalActive (st : AppState) (m : String) (t : LogType) :
    (logEntry st m t).intervalActive = st.intervalActive := rfl

@[simp] theorem logEntry_currentJobId (st : AppState) (m : String) (t : LogType) :
    (logEntry st m t).currentJobId = st.currentJobId := rfl

@[simp] theorem logEntry_capturedTopic (st : AppState) (m : String) (t : LogType) :
    (logEntry st m t).capturedTopic = st.capturedTopic := rfl

@[simp] theorem logEntry_capturedDuration (st : AppState) (m : String) (t : LogType) :
    (logEntry st m t).capturedDuration = st.capturedDuration := rfl

@[simp] theorem logEntry_capturedIsGenerating (st : AppState) (m : String) (t : LogType) :
    (logEntry st m t).capturedIsGenerating = st.capturedIsGenerating := rfl

@[simp] theorem logEntry_unhandledRejection (st : AppState) (m : String) (t : LogType) :
    (logEntry st m t).unhandledRejection = st.unhandledRejection := rfl

@[simp] theorem pollCountChecks_isGenerating (st : AppState) :
    (pollCountChecks st).isGenerating = st.isGenerating := by
  unfold pollCountChecks
  split
  · rfl
  split <;> rfl

@[simp] theorem pollCountChecks_progress (st : AppState) :
    (pollCountChecks st).progress = st.progress := by
  unfold pollCountChecks
  split
  · rfl
  split <;> rfl

@[simp] theorem pollCountChecks_error (st : AppState) :
    (pollCountChecks st).error = st.error := by
  unfold pollCountChecks
  split
  · rfl
  split <;> rfl

@[simp] theorem pollCountChecks_currentStep (st : AppState) :
    (pollCountChecks st).currentStep = st.currentStep := by
  unfold pollCountChecks
  split
  · rfl
  split <;> rfl

@[simp] theorem pollCountChecks_generatedVideo (st : AppState) :
    (pollCountChecks st).generatedVideo = st.generatedVideo := by
  unfold pollCountChecks
  split
  · rfl
  split <;> rfl

@[simp] theorem pollCountChecks_consecutiveErrors (st : AppState) :
    (pollCountChecks st).consecutiveErrors = st.consecutiveErrors := by
  unfold pollCountChecks
  split
  · rfl
  split <;> rfl

@[simp] theorem pollCountChecks_intervalActive (st : AppState) :
    (pollCountChecks st).intervalActive = st.intervalActive := by
  unfold pollCountChecks
  split
  · rfl
  split <;> rfl

@[simp] theorem pollCountChecks_unhandledRejection (st : AppState) :
    (pollCountChecks st).unhandledRejection = st.unhandledRejection := by
  unfold pollCountChecks
  split
  · rfl
  split <;> rfl

/-- Progress is untouched by the poll-error handler on every branch. -/
@[simp] theorem onPollError_progress (st : AppState) (m : String) :
    (onPollError st m).progress = st.progress := by
  simp only [onPollError]
  split <;> rfl

/-- Fields of the poll-error handler while the counter stays below the
threshold. -/
theorem onPollError_below (st : AppState) (m : String)
    (h : st.consecutiveErrors + 1 < 3) :
    (onPollError st m).consecutiveErrors = st.consecutiveErrors + 1 ∧
    (onPollError st m).intervalActive = st.intervalActive ∧
    (onPollError st m).unhandledRejection = st.unhandledRejection ∧
    (onPollError st m).error = st.error ∧
    (onPollError st m).isGenerating = st.isGenerating := by
  have hnot : ¬ 3 ≤ st.consecutiveErrors + 1 := by omega
  simp [onPollError, hnot]

/-- Transport-failure tick while the counter stays below the threshold:
count up by one, interval alive, nothing surfaced. -/
theorem pollTick_failure_below (st : AppState) (m : String)
    (hact : st.intervalActive = true) (h : st.consecutiveErrors + 1 < 3) :
    (pollTick st (.transportFailure m)).consecutiveErrors = st.consecutiveErrors + 1 ∧
    (pollTick st (.transportFailure m)).intervalActive = true ∧
    (pollTick st (.transportFailure m)).unhandledRejection = st.unhandledRejection := by
  have hnot : ¬ 3 ≤ st.consecutiveErrors + 1 := by omega
  simp [pollTick, onPollError, hact, hnot]

/-- Successful tick reporting `pending`: counter reset to zero, interval
alive, nothing surfaced. -/
theorem pollTick_pending (st : AppState) (status : JobStatus)
    (hact : st.intervalActive = true) (hs : status.status = "pending") :
    (pollTick st (.ok status)).consecutiveErrors = 0 ∧
    (pollTick st (.ok status)).intervalActive = true ∧
    (pollTick st (.ok status)).unhandledRejection = st.unhandledRejection := by
  rcases status with ⟨tag, prog, cstep, serr⟩
  dsimp only at hs
  subst hs
  cases prog <;> cases cstep <;> simp [pollTick, hact]

/-! ### Claim theorems -/

/-- C1: the claim says that a timeout firing strictly before any terminal
status forces the timed-out projection — the user-facing message is set and
generation stops.  The code disagrees: the timeout callback does clear the
interval, but it tests the closure-captured `isGenerating` prop, which is
`false` for a run started from idle (captured before `setIsGenerating(true)`
took effect), so the message is never set and `isGenerating` stays `true`.
This theorem evaluates the embedding at such a run. -/
theorem timeout_guard_stale_flag_no_error :
    timedOutRun.intervalActive = false ∧
    timedOutRun.error = "" ∧
    timedOutRun.isGenerating = true ∧
    timedOutRun.capturedIsGenerating = false :=
  ⟨rfl, rfl, rfl, rfl⟩

/-- C2: the claim says the third consecutive transport failure publishes the
polling-exhausted error to the observer-visible error and marks generation
not in progress.  The code does stop polling (the interval is cleared and a
further poll event changes nothing), but the `throw` it then issues escapes
the async interval callback as an unhandled promise rejection — the
enclosing `try/catch` of `realVideoGeneration` returned long before — so the
visible error stays empty and `isGenerating` stays `true`. -/
theorem polling_exhausted_not_surfaced :
    exhaustedRun.intervalActive = false ∧
    exhaustedRun.pollCount = 3 ∧
    exhaustedRun.consecutiveErrors = 3 ∧
    exhaustedRun.error = "" ∧
    exhaustedRun.isGenerating = true ∧
    exhaustedRun.unhandledRejection =
      some "Polling failed after 3 consecutive errors: network down" ∧
    stepEvent exhaustedRun (.poll (.transportFailure "network down")) = exhaustedRun :=
  ⟨rfl, rfl, rfl, rfl, rfl, rfl, rfl⟩

/-- C3 counterexample: the claim says an incoming numeric progress lower
than the last published value is never published.  In the code
`setProgress(status.progress)` runs unconditionally whenever progress is
present: after snapshots reporting 50 and then 10, the visible progress is
10, not the retained 50. -/
theorem progress_regression_published :
    regressRunMid.progress = 50 ∧ regressRun.progress = 10 :=
  ⟨rfl, rfl⟩

/-- C3 amended: whenever a snapshot (other than one reporting `completed`)
carries a numeric progress `p`, the projector publishes exactly `p` — even
when `p` is lower than the last published value, so visible progress can
regress. -/
theorem progress_follows_latest_snapshot (st : AppState) (status : JobStatus)
    (p : Nat) (hact : st.intervalActive = true) (hp : status.progress = some p)
    (hc : status.status ≠ "completed") :
    (pollTick st (.ok status)).progress = p := by
  rcases status with ⟨tag, prog, cstep, serr⟩
  dsimp only at hp hc
  subst hp
  by_cases hf : tag = "failed"
  · subst hf
    cases cstep <;> simp [pollTick, hact]
  · cases cstep <;> simp [pollTick, hact, hc, hf]

/-- C3 amended, witness: a pending snapshot reporting 10 right after the
submission publishes 10. -/
theorem progress_follows_latest_snapshot_witness :
    (pollTick postSubmit (.ok (pendingAt 10))).progress = 10 :=
  progress_follows_latest_snapshot postSubmit (pendingAt 10) 10 rfl rfl (by decide)

/-- C4: the claim says a successful poll reporting status `failed`
publishes the service-supplied detail through the terminal projection.  The
code stops the cadence and no exception escapes the loop boundary, but the
`throw new Error(status.error)` it uses to surface the detail is caught by
the interval callback's own `catch`, which merely counts it (the counter
becomes 1) and logs: the detail never reaches the observer-visible error
and `isGenerating` stays `true`. -/
theorem failed_status_detail_not_published :
    reportedFailedRun.intervalActive = false ∧
    reportedFailedRun.error = "" ∧
    reportedFailedRun.isGenerating = true ∧
    reportedFailedRun.consecutiveErrors = 1 ∧
    reportedFailedRun.unhandledRejection = none :=
  ⟨rfl, rfl, rfl, rfl, rfl⟩

/-- C5: any successful status query (one not reporting `failed`) resets the
consecutive-error counter to zero; consequently across the alternating
outcome sequence failure, success, failure, success, failure the counter
never reaches the threshold 3 — it ends at 1, the cadence is still running
and no polling-exhausted failure occurred. -/
theorem success_resets_error_counter :
    (∀ (st : AppState) (status : JobStatus), st.intervalActive = true →
      status.status ≠ "failed" →
      (pollTick st (.ok status)).consecutiveErrors = 0) ∧
    (∀ (st : AppState) (s1 s2 : JobStatus) (m1 m2 m3 : String),
      st.intervalActive = true → st.consecutiveErrors = 0 →
      st.unhandledRejection = none →
      s1.status = "pending" → s2.status = "pending" →
      ([RunEvent.poll (.transportFailure m1), RunEvent.poll (.ok s1),
        RunEvent.poll (.transportFailure m2), RunEvent.poll (.ok s2),
        RunEvent.poll (.transportFailure m3)].foldl stepEvent st).consecutiveErrors = 1 ∧
      ([RunEvent.poll (.transportFailure m1), RunEvent.poll (.ok s1),
        RunEvent.poll (.transportFailure m2), RunEvent.poll (.ok s2),
        RunEvent.poll (.transportFailure m3)].foldl stepEvent st).intervalActive = true ∧
      ([RunEvent.poll (.transportFailure m1), RunEvent.poll (.ok s1),
        RunEvent.poll (.transportFailure m2), RunEvent.poll (.ok s2),
        RunEvent.poll (.transportFailure m3)].foldl stepEvent st).unhandledRejection = none) := by
  constructor
  · intro st status hact hf
    rcases status with ⟨tag, prog, cstep, serr⟩
    dsimp only at hf
    by_cases hc : tag = "completed"
    · subst hc
      cases prog <;> cases cstep <;> simp [pollTick, hact]
    · cases prog <;> cases cstep <;> simp [pollTick, hact, hc, hf]
  · intro st s1 s2 m1 m2 m3 hact hce hunh hs1 hs2
    simp only [List.foldl, stepEvent]
    have h1 := pollTick_failure_below st m1 hact (by omega)
    have h2 := pollTick_pending (pollTick st (.transportFailure m1)) s1 h1.2.1 hs1
    have h3 := pollTick_failure_below
      (pollTick (pollTick st (.transportFailure m1)) (.ok s1)) m2 h2.2.1 (by omega)
    have h4 := pollTick_pending
      (pollTick (pollTick (pollTick st (.transportFailure m1)) (.ok s1))
        (.transportFailure m2)) s2 h3.2.1 hs2
    have h5 := pollTick_failure_below
      (pollTick (pollTick (pollTick (pollTick st (.transportFailure m1)) (.ok s1))
        (.transportFailure m2)) (.ok s2)) m3 h4.2.1 (by omega)
    refine ⟨?_, h5.2.1, ?_⟩
    · rw [h5.1, h4.1]
    · rw [h5.2.2, h4.2.2, h3.2.2, h2.2.2, h1.2.2, hunh]

/-- C5 witness: the reset and the alternating sequence at concrete inputs,
starting right after the submission. -/
theorem success_resets_error_counter_witness :
    (pollTick postSubmit (.ok (pendingAt 5))).consecutiveErrors = 0 ∧
    (([RunEvent.poll (.transportFailure "a"), RunEvent.poll (.ok (pendingAt 5)),
       RunEvent.poll (.transportFailure "b"), RunEvent.poll (.ok (pendingAt 7)),
       RunEvent.poll (.transportFailure "c")].foldl stepEvent postSubmit).consecutiveErrors = 1 ∧
     ([RunEvent.poll (.transportFailure "a"), RunEvent.poll (.ok (pendingAt 5)),
       RunEvent.poll (.transportFailure "b"), RunEvent.poll (.ok (pendingAt 7)),
       RunEvent.poll (.transportFailure "c")].foldl stepEvent postSubmit).intervalActive = true ∧
     ([RunEvent.poll (.transportFailure "a"), RunEvent.poll (.ok (pendingAt 5)),
       RunEvent.poll (.transportFailure "b"), RunEvent.poll (.ok (pendingAt 7)),
       RunEvent.poll (.transportFailure "c")].foldl stepEvent postSubmit).unhandledRejection = none) :=
  ⟨success_resets_error_counter.1 postSubmit (pendingAt 5) rfl (by decide),
   success_resets_error_counter.2 postSubmit (pendingAt 5) (pendingAt 7) "a" "b" "c"
     rfl rfl rfl rfl rfl⟩

/-- C6: a successful poll reporting `completed` stops the cadence, forces
the published progress to exactly 100 whatever numeric progress the
snapshot carried, records the download locator for the bound job handle,
sets the ready phase text and marks generation finished. -/
theorem completed_forces_full_projection (st : AppState) (status : JobStatus)
    (hact : st.intervalActive = true) (hs : status.status = "completed") :
    (pollTick st (.ok status)).progress = 100 ∧
    (pollTick st (.ok status)).isGenerating = false ∧
    (pollTick st (.ok status)).intervalActive = false ∧
    (pollTick st (.ok status)).currentStep = "Video ready for download!" ∧
    (pollTick st (.ok status)).generatedVideo = some
      { title := st.capturedTopic
        duration := toString st.capturedDuration ++ ":00"
        jobId := st.currentJobId
        downloadUrl := API_BASE_URL ++ "/api/video/" ++ st.currentJobId
        status := "completed" } := by
  rcases status with ⟨tag, prog, cstep, serr⟩
  dsimp only at hs
  subst hs
  cases prog <;> cases cstep <;> simp [pollTick, hact]

/-- C6 witness: Scenario A — pendings at 10, 35, 70 and a completed poll
still reporting 70 end with progress 100 and the locator for job-1. -/
theorem completed_forces_full_projection_witness :
    (pollTick scenarioARun (.ok completedAt70)).progress = 100 ∧
    (pollTick scenarioARun (.ok completedAt70)).isGenerating = false ∧
    (pollTick scenarioARun (.ok completedAt70)).intervalActive = false ∧
    (pollTick scenarioARun (.ok completedAt70)).currentStep = "Video ready for download!" ∧
    (pollTick scenarioARun (.ok completedAt70)).generatedVideo = some
      { title := scenarioARun.capturedTopic
        duration := toString scenarioARun.capturedDuration ++ ":00"
        jobId := scenarioARun.currentJobId
        downloadUrl := API_BASE_URL ++ "/api/video/" ++ scenarioARun.currentJobId
        status := "completed" } :=
  completed_forces_full_projection scenarioARun completedAt70 rfl rfl

/-- C7: a failed submission exchange surfaces immediately through the catch
of `realVideoGeneration` — the service-provided rejection reason when
non-empty, a generic submission-failed reason otherwise — generation is
marked not in progress, and no polling state is ever entered: no interval
exists, no poll is counted, no job handle is bound, and the outcome is
independent of any later events. -/
theorem submission_failure_reported (st0 : AppState) (fd : FormData)
    (captured : Bool) (detail : String) (events : List RunEvent)
    (hd : detail ≠ "") :
    (realVideoGeneration st0 fd captured (.rejected (some detail)) events).error = detail ∧
    (realVideoGeneration st0 fd captured (.rejected (some detail)) events).isGenerating = false ∧
    (realVideoGeneration st0 fd captured (.rejected (some detail)) events).pollCount = 0 ∧
    (realVideoGeneration st0 fd captured (.rejected (some detail)) events).intervalActive = false ∧
    (realVideoGeneration st0 fd captured (.rejected (some detail)) events).jobId = none ∧
    realVideoGeneration st0 fd captured (.rejected (some detail)) events
      = realVideoGeneration st0 fd captured (.rejected (some detail)) [] ∧
    (realVideoGeneration st0 fd captured (.rejected none) events).error
      = "Failed to start video generation" ∧
    (realVideoGeneration st0 fd captured (.transportError "") events).error
      = "Failed to generate video. Please try again." := by
  refine ⟨?_, rfl, rfl, rfl, rfl, rfl, rfl, rfl⟩
  simp [realVideoGeneration, catchGeneration, orElseStr, hd]

/-- C7 witness: Scenario D — rejection reason "invalid topic". -/
theorem submission_failure_reported_witness :
    (realVideoGeneration initialAppState fdA false
        (.rejected (some "invalid topic")) [.poll (.ok (pendingAt 10))]).error
      = "invalid topic" ∧
    (realVideoGeneration initialAppState fdA false
        (.rejected (some "invalid topic")) [.poll (.ok (pendingAt 10))]).isGenerating = false ∧
    (realVideoGeneration initialAppState fdA false
        (.rejected (some "invalid topic")) [.poll (.ok (pendingAt 10))]).pollCount = 0 ∧
    (realVideoGeneration initialAppState fdA false
        (.rejected (some "invalid topic")) [.poll (.ok (pendingAt 10))]).intervalActive = false ∧
    (realVideoGeneration initialAppState fdA false
        (.rejected (some "invalid topic")) [.poll (.ok (pendingAt 10))]).jobId = none ∧
    realVideoGeneration initialAppState fdA false
        (.rejected (some "invalid topic")) [.poll (.ok (pendingAt 10))]
      = realVideoGeneration initialAppState fdA false
        (.rejected (some "invalid topic")) [] ∧
    (realVideoGeneration initialAppState fdA false
        (.rejected none) [.poll (.ok (pendingAt 10))]).error
      = "Failed to start video generation" ∧
    (realVideoGeneration initialAppState fdA false
        (.transportError "") [.poll (.ok (pendingAt 10))]).error
      = "Failed to generate video. Please try again." :=
  submission_failure_reported initialAppState fdA false "invalid topic"
    [.poll (.ok (pendingAt 10))] (by decide)

/-- C8 counterexample: the claim says a start issued while a run is active
is either rejected or first aborts the active run.  Concretely, with a run
active (`postSubmit` has `isGenerating = true` and its interval live),
`handleSubmit` with a valid topic issues a new submission (the new handle
job-2 is bound and a new interval starts) while the first run's interval —
a timer no statement on this code path can cancel — stays live: two polling
loops are active concurrently. -/
theorem second_start_neither_rejects_nor_aborts :
    postSubmit.isGenerating = true ∧
    postSubmit.intervalActive = true ∧
    (handleSubmitWithPriorInterval true postSubmit fdA true (.ok "job-2") []).1 = true ∧
    (handleSubmitWithPriorInterval true postSubmit fdA true (.ok "job-2") []).2.jobId
      = some "job-2" ∧
    (handleSubmitWithPriorInterval true postSubmit fdA true (.ok "job-2") []).2.intervalActive
      = true :=
  ⟨rfl, rfl, rfl, rfl, rfl⟩

/-- C8 amended: `handleSubmit` guards only on a non-blank topic and the
backend-health flag — it neither rejects a start issued while a run is
active nor cancels the prior run's interval; on a successful second
submission a second live polling loop exists alongside the first. -/
theorem second_start_overlaps_active_run (prior : Bool) (st : AppState)
    (fd : FormData) (submit : SubmitOutcome) (events : List RunEvent)
    (job_id : String) (ht : jsTrim fd.topic ≠ "") :
    (handleSubmitWithPriorInterval prior st fd true submit events).1 = prior ∧
    (handleSubmitWithPriorInterval prior st fd true submit events).2
      = realVideoGeneration st fd st.isGenerating submit events ∧
    (handleSubmitWithPriorInterval prior st fd true (.ok job_id) []).2.intervalActive = true ∧
    (handleSubmitWithPriorInterval prior st fd true (.ok job_id) []).2.jobId = some job_id := by
  refine ⟨rfl, ?_, ?_, ?_⟩
  · simp [handleSubmitWithPriorInterval, handleSubmit, ht]
  · simp [handleSubmitWithPriorInterval, handleSubmit, ht, realVideoGeneration]
  · simp [handleSubmitWithPriorInterval, handleSubmit, ht, realVideoGeneration]

/-- C8 amended, witness: overlapping second start at concrete inputs. -/
theorem second_start_overlaps_active_run_witness :
    (handleSubmitWithPriorInterval true postSubmit fdA true (.rejected none) []).1 = true ∧
    (handleSubmitWithPriorInterval true postSubmit fdA true (.rejected none) []).2
      = realVideoGeneration postSubmit fdA postSubmit.isGenerating (.rejected none) [] ∧
    (handleSubmitWithPriorInterval true postSubmit fdA true (.ok "job-2") []).2.intervalActive
      = true ∧
    (handleSubmitWithPriorInterval true postSubmit fdA true (.ok "job-2") []).2.jobId
      = some "job-2" :=
  second_start_overlaps_active_run true postSubmit fdA (.rejected none) [] "job-2" (by decide)

/-- C9: the claim (and the code's own comment, "Keep last 20 logs") bounds
the debug log at 20 entries, but `[...prev.slice(-20), entry]` keeps the
LAST 20 old entries and then appends one more: appending to a log already
holding 20 entries yields 21. -/
theorem addDebugLog_exceeds_capacity :
    (addDebugLog (List.replicate 20 { message := "m", type := .info })
      "overflow" .info).length = 21 := by
  rfl

/-- C10: a submit with a blank (empty or all-whitespace) topic, or issued
while the backend health flag is down, returns after only setting the
matching validation message: the generating flag, poll counter, interval
and job handle are untouched, and the outcome is independent of the
submission/poll outcomes — no request is issued. -/
theorem submit_validation_guard (st : AppState) (fd : FormData) (bc : Bool)
    (s1 s2 : SubmitOutcome) (e1 e2 : List RunEvent)
    (h : jsTrim fd.topic = "" ∨ bc = false) :
    ((handleSubmit st fd bc s1 e1).error = "Please enter a topic for your video" ∨
     (handleSubmit st fd bc s1 e1).error
       = "Backend is not connected. Please make sure the API server is running.") ∧
    (handleSubmit st fd bc s1 e1).isGenerating = st.isGenerating ∧
    (handleSubmit st fd bc s1 e1).pollCount = st.pollCount ∧
    (handleSubmit st fd bc s1 e1).intervalActive = st.intervalActive ∧
    (handleSubmit st fd bc s1 e1).jobId = st.jobId ∧
    handleSubmit st fd bc s1 e1 = handleSubmit st fd bc s2 e2 := by
  by_cases ht : jsTrim fd.topic = ""
  · simp [handleSubmit, ht]
  · have hb : bc = false := h.resolve_left ht
    subst hb
    simp [handleSubmit, ht]

/-- C10 witness: a whitespace-only topic with the backend connected. -/
theorem submit_validation_guard_witness :
    ((handleSubmit initialAppState { fdA with topic := "   " } true (.ok "job-1")
        [.timeout]).error = "Please enter a topic for your video" ∨
     (handleSubmit initialAppState { fdA with topic := "   " } true (.ok "job-1")
        [.timeout]).error
       = "Backend is not connected. Please make sure the API server is running.") ∧
    (handleSubmit initialAppState { fdA with topic := "   " } true (.ok "job-1")
        [.timeout]).isGenerating = initialAppState.isGenerating ∧
    (handleSubmit initialAppState { fdA with topic := "   " } true (.ok "job-1")
        [.timeout]).pollCount = initialAppState.pollCount ∧
    (handleSubmit initialAppState { fdA with topic := "   " } true (.ok "job-1")
        [.timeout]).intervalActive = initialAppState.intervalActive ∧
    (handleSubmit initialAppState { fdA with topic := "   " } true (.ok "job-1")
        [.timeout]).jobId = initialAppState.jobId ∧
    handleSubmit initialAppState { fdA with topic := "   " } true (.ok "job-1") [.timeout]
      = handleSubmit initialAppState { fdA with topic := "   " } true (.rejected none) [] :=
  submit_validation_guard initialAppState { fdA with topic := "   " } true
    (.ok "job-1") (.rejected none) [.timeout] [] (Or.inl (by decide))

end Magi
